import Mathlib

/-!
Shallow embedding of the noteshrinker-django book-processing pipeline:
the PDF assembly utilities (`pdf_utils.py`), the `Book` model
(`models.py`) and the book views (`views.py`), together with the
quantization core of the image-optimization engine.

A PDF is modelled by its page sequence (`List Img`); an error raised by
a Python function is modelled by `Except NsError`; the database is a map
from book id to the stored `Book` row.
-/

namespace Noteshrinker

/-! ## Colors and quantization

The image-optimization core (`noteshrink_module.notescan_main`) is not
part of the repository sources available here; its quantizer is
modelled from the spec (§4.4). -/

/-- An RGB color: three channels in 0–255. -/
abbrev Color := Nat × Nat × Nat

/-- Squared Euclidean distance between two RGB colors. -/
def sqDist (a b : Color) : ℤ :=
  ((a.1 : ℤ) - b.1) ^ 2 + ((a.2.1 : ℤ) - b.2.1) ^ 2 + ((a.2.2 : ℤ) - b.2.2) ^ 2

/-- Modelled from the spec: the Quantizer's nearest-palette-entry lookup
(§4.4) — the palette entry at minimal squared Euclidean distance from
`c`, ties broken in favour of the lowest palette index.  `none` only on
an empty palette.  (`noteshrink_module.py` is not among the sources.) -/
def nearestColor (c : Color) : List Color → Option Color
  | [] => none
  | p :: rest =>
    match nearestColor c rest with
    | none => some p
    | some q => some (if sqDist c p ≤ sqDist c q then p else q)

/-- Modelled from the spec: the Quantizer (§4.4) — every pixel of the
page is replaced by its nearest palette entry.  (`noteshrink_module.py`
is not among the sources.) -/
def quantizePage (pal : List Color) (img : List Color) : List Color :=
  img.map fun c => (nearestColor c pal).getD c

/-! ## PDF pipeline (`pdf_utils.py`) -/

/-- The spec's error taxonomy (§7), naming the Python exceptions the
pipeline raises. -/
inductive NsError
  | invalidInput (msg : String)
  | encodingError (msg : String)
  | unrecoverable (msg : String)
deriving DecidableEq, Repr

/-- The pipeline steps of `process_book`, in source order: Step 1
rasterization, Step 2 `optimize_images`, Step 3 `images_to_pdf`,
Step 4 `merge_pdfs`. -/
inductive Stage
  | extracting
  | optimizing
  | assembling
  | merging
deriving DecidableEq, Repr

/-- `pdf_to_images` (pdf_utils.py:74): converts every page of the PDF
to an image, one image per page in page order.  `rasterize` stands for
`convert_from_path` at the configured DPI. -/
def pdf_to_images {Page Img : Type} (rasterize : Page → Img) (doc : List Page) :
    List Img :=
  doc.map rasterize

/-- `optimize_images` (pdf_utils.py:106) calls `notescan_main`, which is
not among the sources.  Modelled from the spec: the engine quantizes
every page independently (one output per input, in input order, §4.4,
§4.6) and fails with `InvalidInput` on an empty sample set (§4.2, §4.3)
— with zero input images the pooled sample is empty.  `f` is the
per-page optimization transform. -/
def optimize_images {Img : Type} (f : Img → Img) (image_paths : List Img) :
    Except NsError (List Img) :=
  if image_paths.isEmpty then .error (.invalidInput "empty sample set")
  else .ok (image_paths.map f)

/-- `images_to_pdf` (pdf_utils.py:157): raises on an empty input list
(`ValueError("No images provided")`, the spec's `EncodingError`), else
builds a PDF whose pages are the images in order (first image saved
with the rest appended in order). -/
def images_to_pdf {Img : Type} (image_paths : List Img) :
    Except NsError (List Img) :=
  if image_paths.isEmpty then .error (.encodingError "No images provided")
  else .ok image_paths

/-- `merge_pdfs` (pdf_utils.py:204): appends all cover pages (when a
cover is provided) and then all main pages, each in reading order. -/
def merge_pdfs {Img : Type} (cover_pdf : Option (List Img)) (main_pdf : List Img) :
    List Img :=
  (match cover_pdf with
   | some cover => cover
   | none => []) ++ main_pdf

/-- `process_book` (pdf_utils.py:244): Step 1 rasterize all pages,
Step 2 optimize, Step 3 build the main PDF, Step 4 merge with the cover
when one is present.  Returns the pipeline steps that were entered
together with the result (an exception propagates to the caller). -/
def process_book {Page Img : Type} (rasterize : Page → Img) (f : Img → Img)
    (cover_pdf : Option (List Img)) (doc : List Page) :
    List Stage × Except NsError (List Img) :=
  let image_paths := pdf_to_images rasterize doc
  match optimize_images f image_paths with
  | .error e => ([.extracting, .optimizing], .error e)
  | .ok optimized_paths =>
    match images_to_pdf optimized_paths with
    | .error e => ([.extracting, .optimizing, .assembling], .error e)
    | .ok main_optimized =>
      match cover_pdf with
      | some cover =>
        ([.extracting, .optimizing, .assembling, .merging],
         .ok (merge_pdfs (some cover) main_optimized))
      | none => ([.extracting, .optimizing, .assembling], .ok main_optimized)

/-! ## The `Book` model (`models.py`) -/

/-- `Book.STATUS_CHOICES` (models.py:35). -/
inductive Status
  | uploaded
  | preview
  | processing
  | completed
  | failed
deriving DecidableEq, Repr

/-- The stored string value of a status (models.py:35). -/
def statusStr : Status → String
  | .uploaded => "uploaded"
  | .preview => "preview"
  | .processing => "processing"
  | .completed => "completed"
  | .failed => "failed"

/-- The settings dict stored by `book_process` (views.py:457). -/
structure PSettings where
  dpi : ℤ
  num_colors : ℤ
  sample_fraction : ℚ
  sat_threshold : ℚ
  value_threshold : ℚ
  white_bg : Bool
  global_palette : Bool
deriving DecidableEq, Repr

/-- The `Book` model's fields (models.py:32).  File fields are the
stored file names (`none` for an empty file field); float fields are
modelled as exact rationals.  Note the model stores no error
description of any kind. -/
structure BookRec where
  main_pdf : String
  cover_pdf : Option String
  optimized_pdf : Option String
  title : String
  original_filename : String
  status : Status
  original_size_mb : Option ℚ
  optimized_size_mb : Option ℚ
  page_count : Option ℕ
  cover_page_count : Option ℕ
  processing_settings : Option PSettings
  session_key : String
deriving DecidableEq, Repr

/-- Python truthiness of an optional float: `None` and `0.0` are falsy. -/
def pyTruthy (x : Option ℚ) : Bool :=
  match x with
  | none => false
  | some v => decide (v ≠ 0)

/-- Python 3 `round` to an integer: round half to even. -/
def pyRoundInt (x : ℚ) : ℤ :=
  if x - ⌊x⌋ < 1 / 2 then ⌊x⌋
  else if (1 : ℚ) / 2 < x - ⌊x⌋ then ⌊x⌋ + 1
  else if Even ⌊x⌋ then ⌊x⌋ else ⌊x⌋ + 1

/-- Python `round(x, 1)`. -/
def pyRound1 (x : ℚ) : ℚ :=
  (pyRoundInt (x * 10) : ℚ) / 10

/-- `Book.compression_ratio` (models.py:85): `round((1 - opt / orig) * 100, 1)`
when `self.original_size_mb and self.optimized_size_mb` is truthy,
else `None`. -/
def compression_ratio (b : BookRec) : Option ℚ :=
  if pyTruthy b.original_size_mb && pyTruthy b.optimized_size_mb then
    some (pyRound1 ((1 - b.optimized_size_mb.getD 0 / b.original_size_mb.getD 0) * 100))
  else none

/-- C9's reading of `Book.compression_ratio`: the rounded ratio exactly
when both sizes are set and non-zero, `None` in every other case. -/
def compression_ratio_claimed (b : BookRec) : Option ℚ :=
  match b.original_size_mb, b.optimized_size_mb with
  | some orig, some opt =>
    if orig ≠ 0 ∧ opt ≠ 0 then some (pyRound1 ((1 - opt / orig) * 100)) else none
  | _, _ => none

/-- `Book.total_pages` (models.py:93): cover page count plus main page
count, each defaulting to 0. -/
def total_pages (b : BookRec) : ℕ :=
  b.cover_page_count.getD 0 + b.page_count.getD 0

/-! ## Book views (`views.py`) -/

/-- `Book.save()` on the row with the given id. -/
def saveBook (db : ℕ → Option BookRec) (book_id : ℕ) (b : BookRec) :
    ℕ → Option BookRec :=
  fun j => if j = book_id then some b else db j

/-- `_process_book_background` (views.py:485): fetches the book, runs
`process_book` and stores the result.  `runResult` stands for the
outcome of `pdf_utils.process_book` plus reading the output file (the
optimized PDF's size in MB on success, the raised exception on
failure).  On success it saves the optimized PDF under
`optimized_<original_filename>`, records its size and sets status
`completed` in one save; on any exception it only sets status `failed`
(the inner fetch failing as well leaves the database untouched — the
handler swallows everything, so the worker itself never raises). -/
def process_book_background (db : ℕ → Option BookRec) (book_id : ℕ)
    (runResult : Except NsError ℚ) : ℕ → Option BookRec :=
  match db book_id with
  | none => db
  | some book =>
    match runResult with
    | .ok size_mb =>
      saveBook db book_id
        { book with
          optimized_pdf := some ("optimized_" ++ book.original_filename)
          optimized_size_mb := some size_mb
          status := Status.completed }
    | .error _ =>
      saveBook db book_id { book with status := Status.failed }

/-- An HTTP response of `book_download`. -/
inductive DlResponse
  | badRequest (msg : String)
  | fileResponse (content : List ℕ) (filename : String)
deriving DecidableEq, Repr

/-- `book_download` (views.py:561): rejects unless the status is
`completed` and an optimized PDF is recorded; otherwise serves the
file's bytes (`readFile` stands for opening the stored file, `none`
when that raises). -/
def book_download (b : BookRec) (readFile : String → Option (List ℕ)) :
    DlResponse :=
  if b.status ≠ Status.completed ∨ b.optimized_pdf.isNone then
    .badRequest "Book processing not completed"
  else
    match readFile (b.optimized_pdf.getD "") with
    | some content => .fileResponse content ("optimized_" ++ b.original_filename)
    | none => .badRequest "Error downloading file"

/-- A JSON value as produced by `book_status_json`. -/
inductive JVal
  | jstr (s : String)
  | jnum (q : ℚ)
  | jnull
deriving DecidableEq, Repr

/-- An optional float serialized to JSON. -/
def optNum : Option ℚ → JVal
  | none => .jnull
  | some q => .jnum q

/-- An optional integer serialized to JSON. -/
def optNatNum : Option ℕ → JVal
  | none => .jnull
  | some n => .jnum n

/-- `reverse('noteshrinker:book_download')` over urls.py:25. -/
def book_download_url (book_id : ℕ) : String :=
  "/books/" ++ toString book_id ++ "/download/"

/-- `book_status_json` (views.py:537): the response's key/value pairs
in order — always the status name and the stats, plus `download_url`
exactly when the status is `completed`. -/
def book_status_json (book_id : ℕ) (b : BookRec) : List (String × JVal) :=
  [("status", .jstr (statusStr b.status)),
   ("title", .jstr b.title),
   ("original_size_mb", optNum b.original_size_mb),
   ("optimized_size_mb", optNum b.optimized_size_mb),
   ("compression_ratio", optNum ( compression_ratio b)),
   ("page_count", optNatNum b.page_count),
   ("total_pages", .jnum (total_pages b))] ++
  (if b.status = Status.completed
   then [("download_url", .jstr (book_download_url book_id))]
   else [])

/-- An HTTP response of `book_process`. -/
inductive ProcResponse
  | notFound
  | badRequest (msg : String)
  | redirectStatus (book_id : ℕ)
deriving DecidableEq, Repr

/-- `book_process` (views.py:445): 404 when the book does not exist;
`400` when the book is already `processing`; otherwise parses the
settings (`parsed` stands for reading the POST parameters, which can
raise `ValueError`), saves them with status `processing`, and starts
the background thread.  Returns the response, the database after the
request, and whether a background worker was started. -/
def book_process (db : ℕ → Option BookRec) (book_id : ℕ)
    (parsed : Except String PSettings) :
    ProcResponse × (ℕ → Option BookRec) × Bool :=
  match db book_id with
  | none => (.notFound, db, false)
  | some book =>
    if book.status = Status.processing then
      (.badRequest "Book is already being processed", db, false)
    else
      match parsed with
      | .error e => (.badRequest ("Processing error: " ++ e), db, false)
      | .ok s =>
        (.redirectStatus book_id,
         saveBook db book_id
           { book with processing_settings := some s, status := Status.processing },
         true)

/-! ## Concrete rows used by witnesses and counterexamples -/

/-- A book whose processing has just been started. -/
def bProcessing : BookRec :=
  { main_pdf := "books/main/b.pdf"
    cover_pdf := none
    optimized_pdf := none
    title := "B"
    original_filename := "b.pdf"
    status := Status.processing
    original_size_mb := some 2
    optimized_size_mb := none
    page_count := some 3
    cover_page_count := none
    processing_settings := none
    session_key := "s" }

/-- A second, unrelated book being processed concurrently. -/
def bOther : BookRec :=
  { bProcessing with
    title := "Other"
    main_pdf := "books/main/other.pdf"
    original_filename := "other.pdf" }

/-- A failed book. -/
def bFailed : BookRec :=
  { bProcessing with status := Status.failed }

/-- A completed book with its output recorded. -/
def bCompleted : BookRec :=
  { bProcessing with
    status := Status.completed
    optimized_pdf := some "optimized_b.pdf"
    optimized_size_mb := some 1 }

/-- A database holding the two processing books. -/
def db2 : ℕ → Option BookRec :=
  fun j => if j = 1 then some bProcessing else if j = 2 then some bOther else none

/-- Default settings of `book_process` (views.py:457). -/
def s0 : PSettings :=
  { dpi := 150, num_colors := 8, sample_fraction := 1 / 20,
    sat_threshold := 1 / 5, value_threshold := 1 / 4,
    white_bg := true, global_palette := true }

/-! ## Helper lemmas on the quantizer -/

theorem nearestColor_eq_none_iff (c : Color) (pal : List Color) :
    nearestColor c pal = none ↔ pal = [] := by
  cases pal with
  | nil => simp [nearestColor]
  | cons p rest =>
    simp only [nearestColor]
    cases nearestColor c rest <;> simp

theorem nearestColor_mem (c : Color) (pal : List Color) (r : Color)
    (h : nearestColor c pal = some r) : r ∈ pal := by
  induction pal generalizing r with
  | nil => simp [nearestColor] at h
  | cons p rest ih =>
    simp only [nearestColor] at h
    cases hrest : nearestColor c rest with
    | none => rw [hrest] at h; simp at h; simp [h]
    | some q =>
      rw [hrest] at h
      simp only [Option.some.injEq] at h
      by_cases hle : sqDist c p ≤ sqDist c q
      · rw [if_pos hle] at h; simp [h]
      · rw [if_neg hle] at h
        subst h
        exact List.mem_cons_of_mem _ (ih q hrest)

theorem nearestColor_min (c : Color) (pal : List Color) (r : Color)
    (h : nearestColor c pal = some r) : ∀ q ∈ pal, sqDist c r ≤ sqDist c q := by
  induction pal generalizing r with
  | nil => simp [nearestColor] at h
  | cons p rest ih =>
    simp only [nearestColor] at h
    cases hrest : nearestColor c rest with
    | none =>
      rw [hrest] at h
      simp only [Option.some.injEq] at h
      subst h
      have hnil : rest = [] := (nearestColor_eq_none_iff c rest).mp hrest
      subst hnil
      simp
    | some q0 =>
      rw [hrest] at h
      simp only [Option.some.injEq] at h
      have hq0 := ih q0 hrest
      intro q hq
      rcases List.mem_cons.mp hq with hq | hq
      · rw [hq]
        by_cases hle : sqDist c p ≤ sqDist c q0
        · rw [if_pos hle] at h; subst h; exact le_refl _
        · rw [if_neg hle] at h; subst h; exact le_of_not_le hle
      · by_cases hle : sqDist c p ≤ sqDist c q0
        · rw [if_pos hle] at h; subst h; exact le_trans hle (hq0 q hq)
        · rw [if_neg hle] at h; subst h; exact hq0 q hq

theorem nearestColor_first (c : Color) (pal : List Color) (r : Color)
    (h : nearestColor c pal = some r) :
    ∃ l1 l2, pal = l1 ++ r :: l2 ∧ ∀ q ∈ l1, sqDist c r < sqDist c q := by
  induction pal generalizing r with
  | nil => simp [nearestColor] at h
  | cons p rest ih =>
    simp only [nearestColor] at h
    cases hrest : nearestColor c rest with
    | none =>
      rw [hrest] at h
      simp only [Option.some.injEq] at h
      subst h
      exact ⟨[], rest, rfl, by simp⟩
    | some q0 =>
      rw [hrest] at h
      simp only [Option.some.injEq] at h
      by_cases hle : sqDist c p ≤ sqDist c q0
      · rw [if_pos hle] at h
        subst h
        exact ⟨[], rest, rfl, by simp⟩
      · rw [if_neg hle] at h
        subst h
        obtain ⟨l1, l2, heq, hlt⟩ := ih q0 hrest
        refine ⟨p :: l1, l2, by simp [heq], ?_⟩
        intro q hq
        rcases List.mem_cons.mp hq with hq | hq
        · subst hq; exact lt_of_not_le hle
        · exact hlt q hq

/-! ## Claim theorems -/

/-- C4: every pixel of a quantized page is a palette entry — each pixel
is replaced by the nearest palette entry (minimal squared Euclidean
distance), ties broken by the lowest palette index (the entry occurs
after only strictly-worse entries), so no color outside the palette
ever appears in quantized output. -/
theorem quantizer_palette_closure (pal img : List Color) (hpal : pal ≠ []) :
    (∀ p ∈ quantizePage pal img, p ∈ pal) ∧
    ∀ c ∈ img, ∃ r, nearestColor c pal = some r ∧
      (∀ q ∈ pal, sqDist c r ≤ sqDist c q) ∧
      ∃ l1 l2, pal = l1 ++ r :: l2 ∧ ∀ q ∈ l1, sqDist c r < sqDist c q := by
  have hsome : ∀ c : Color, ∃ r, nearestColor c pal = some r := by
    intro c
    cases hn : nearestColor c pal with
    | none => exact absurd ((nearestColor_eq_none_iff c pal).mp hn) hpal
    | some r => exact ⟨r, rfl⟩
  constructor
  · intro p hp
    simp only [quantizePage, List.mem_map] at hp
    obtain ⟨c, _, hc⟩ := hp
    obtain ⟨r, hr⟩ := hsome c
    rw [hr] at hc
    simp only [Option.getD_some] at hc
    subst hc
    exact nearestColor_mem c pal r hr
  · intro c _
    obtain ⟨r, hr⟩ := hsome c
    exact ⟨r, hr, nearestColor_min c pal r hr, nearestColor_first c pal r hr⟩

/-- Witness for C4 at a concrete palette and page. -/
theorem quantizer_palette_closure_witness :
    ([(255, 255, 255), (0, 0, 0)] : List Color) ≠ [] ∧
    ((∀ p ∈ quantizePage [(255, 255, 255), (0, 0, 0)] [(10, 10, 10), (200, 200, 200)],
        p ∈ [(255, 255, 255), (0, 0, 0)]) ∧
      ∀ c ∈ [((10 : Nat), (10 : Nat), (10 : Nat)), (200, 200, 200)],
        ∃ r, nearestColor c [(255, 255, 255), (0, 0, 0)] = some r ∧
          (∀ q ∈ [((255 : Nat), (255 : Nat), (255 : Nat)), (0, 0, 0)],
            sqDist c r ≤ sqDist c q) ∧
          ∃ l1 l2, [((255 : Nat), (255 : Nat), (255 : Nat)), (0, 0, 0)] = l1 ++ r :: l2 ∧
            ∀ q ∈ l1, sqDist c r < sqDist c q) :=
  ⟨by decide, quantizer_palette_closure [(255, 255, 255), (0, 0, 0)]
    [(10, 10, 10), (200, 200, 200)] (by decide)⟩

/-- C1: for a non-empty main document, the assembled output's page
sequence is exactly the cover pages (in order) followed by the
processed main pages in their original input order. -/
theorem assembly_preserves_order {Page Img : Type} (rasterize : Page → Img)
    (f : Img → Img) (cover_pdf : Option (List Img)) (doc : List Page)
    (hne : doc ≠ []) :
    (process_book rasterize f cover_pdf doc).2 =
      .ok (cover_pdf.getD [] ++ (doc.map rasterize).map f) := by
  have h1 : (doc.map rasterize).isEmpty = false := by
    simp [List.isEmpty_iff, hne]
  have h2 : (doc.map (f ∘ rasterize)).isEmpty = false := by
    simp [List.isEmpty_iff, hne]
  cases cover_pdf with
  | none =>
    simp [process_book, optimize_images, images_to_pdf, pdf_to_images, h1, h2]
  | some cover =>
    simp [process_book, optimize_images, images_to_pdf, pdf_to_images, h1, h2,
      merge_pdfs]

/-- Witness for C1 at a concrete cover and document. -/
theorem assembly_preserves_order_witness :
    ([10, 20] : List ℕ) ≠ [] ∧
    (process_book (fun p : ℕ => p + 1) (fun i : ℕ => 2 * i) (some [7]) [10, 20]).2 =
      .ok [7, 22, 42] := by
  refine ⟨by decide, ?_⟩
  have h := assembly_preserves_order (fun p : ℕ => p + 1) (fun i : ℕ => 2 * i)
    (some [7]) [10, 20] (by decide)
  simpa using h

/-- C5: assembling the empty sequence of pages fails with the
`EncodingError` (`ValueError("No images provided")`) instead of
producing a PDF. -/
theorem images_to_pdf_empty_fails :
    images_to_pdf ([] : List Color) = .error (.encodingError "No images provided") :=
  rfl

/-- C9: `compression_ratio` returns the rounded percentage exactly when
both sizes are set and non-zero and `None` in every other case (unset
or zero denominator), so the division is never evaluated with a zero or
missing denominator. -/
theorem compression_ratio_safe (b : BookRec) :
    compression_ratio b = compression_ratio_claimed b := by
  unfold compression_ratio compression_ratio_claimed pyTruthy
  cases horig : b.original_size_mb with
  | none => simp
  | some orig =>
    cases hopt : b.optimized_size_mb with
    | none => simp
    | some opt =>
      by_cases h1 : orig = 0
      · simp [h1]
      · by_cases h2 : opt = 0
        · simp [h1, h2]
        · simp [h1, h2]

/-- C2 (amended): an error in any stage of the background worker marks
only the current book `failed` — the row is otherwise unchanged, so in
particular no error description is recorded on it — and every other
row of the database is untouched; the worker returns normally. -/
theorem background_error_contained (db : ℕ → Option BookRec) (book_id : ℕ)
    (b : BookRec) (e : NsError) (hb : db book_id = some b) :
    process_book_background db book_id (.error e) book_id =
      some { b with status := Status.failed } ∧
    ∀ j, j ≠ book_id → process_book_background db book_id (.error e) j = db j := by
  unfold process_book_background
  rw [hb]
  constructor
  · simp [saveBook]
  · intro j hj
    simp [saveBook, hj]

/-- Witness for C2's amended theorem at a concrete database. -/
theorem background_error_contained_witness :
    db2 1 = some bProcessing ∧
    (process_book_background db2 1 (.error (.unrecoverable "boom")) 1 =
        some { bProcessing with status := Status.failed } ∧
      ∀ j, j ≠ 1 → process_book_background db2 1 (.error (.unrecoverable "boom")) j =
        db2 j) :=
  ⟨rfl, background_error_contained db2 1 bProcessing (.unrecoverable "boom") rfl⟩

/-- Counterexample to C2 as stated: after a failing run the job row is
`{ bProcessing with status := failed }` — the only recorded change is
the status field, so no error description is recorded on the job, and
the subsequent status response nowhere contains the error text. -/
theorem background_error_no_description :
    process_book_background db2 1 (.error (.unrecoverable "boom")) 1 =
      some { bProcessing with status := Status.failed } ∧
    ∀ kv ∈ book_status_json 1 { bProcessing with status := Status.failed },
      kv.2 ≠ JVal.jstr "boom" := by
  constructor
  · rfl
  · decide

/-- Counterexample to C3 as stated: on a zero-page document the
pipeline does enter the extraction stage — `pdf_to_images` is invoked
before any page-count check — before failing. -/
theorem zero_pages_extraction_attempted :
    Stage.extracting ∈ (process_book (fun p : ℕ => p) (fun i : ℕ => i) none
      ([] : List ℕ)).1 ∧
    (process_book (fun p : ℕ => p) (fun i : ℕ => i) none ([] : List ℕ)).2 =
      .error (.invalidInput "empty sample set") := by
  constructor
  · decide
  · rfl

/-- C3 (amended): a zero-page document does end `failed`, but only
after the pipeline has entered extraction (rasterization is run and
yields no images) and then optimization, where the empty sample set
raises; the worker then marks the job `failed` (the stored transition
is `processing → failed`, there is no pre-extraction check). -/
theorem zero_pages_fail_after_extraction {Page Img : Type}
    (rasterize : Page → Img) (f : Img → Img) (cover_pdf : Option (List Img))
    (db : ℕ → Option BookRec) (book_id : ℕ) (b : BookRec)
    (hb : db book_id = some b) :
    process_book rasterize f cover_pdf ([] : List Page) =
      ([Stage.extracting, Stage.optimizing],
       .error (.invalidInput "empty sample set")) ∧
    process_book_background db book_id (.error (.invalidInput "empty sample set"))
        book_id = some { b with status := Status.failed } := by
  constructor
  · rfl
  · exact (background_error_contained db book_id b _ hb).1

/-- Witness for C3's amended theorem at a concrete database. -/
theorem zero_pages_fail_after_extraction_witness :
    db2 1 = some bProcessing ∧
    (process_book (fun p : ℕ => p) (fun i : ℕ => i) none ([] : List ℕ) =
        ([Stage.extracting, Stage.optimizing],
         .error (.invalidInput "empty sample set")) ∧
      process_book_background db2 1 (.error (.invalidInput "empty sample set")) 1 =
        some { bProcessing with status := Status.failed }) :=
  ⟨rfl, zero_pages_fail_after_extraction (fun p : ℕ => p) (fun i : ℕ => i) none
    db2 1 bProcessing rfl⟩

/-- C6: when the background worker leaves a job `completed`, the
optimized PDF handle and its size have been recorded on it in the same
save, so a `completed` status is never observable without an output
reference. -/
theorem completed_implies_output_recorded (db : ℕ → Option BookRec)
    (book_id : ℕ) (b : BookRec) (res : Except NsError ℚ) (b' : BookRec)
    (hb : db book_id = some b)
    (hres : process_book_background db book_id res book_id = some b')
    (hc : b'.status = Status.completed) :
    b'.optimized_pdf.isSome ∧ b'.optimized_size_mb.isSome := by
  unfold process_book_background at hres
  rw [hb] at hres
  cases res with
  | ok size_mb =>
    simp only [saveBook, if_true, eq_self_iff_true, Option.some.injEq] at hres
    subst hres
    simp
  | error e =>
    simp only [saveBook, if_true, eq_self_iff_true, Option.some.injEq] at hres
    subst hres
    simp at hc

/-- Witness for C6 at a concrete database and run result. -/
theorem completed_implies_output_recorded_witness :
    db2 1 = some bProcessing ∧
    process_book_background db2 1 (.ok 1) 1 = some bCompleted ∧
    bCompleted.status = Status.completed ∧
    (bCompleted.optimized_pdf.isSome ∧ bCompleted.optimized_size_mb.isSome) :=
  ⟨rfl, by decide, rfl,
    completed_implies_output_recorded db2 1 bProcessing (.ok 1) bCompleted
      rfl (by decide) rfl⟩

/-- C7: for a job whose status is not `completed` — in particular a
failed one — the download endpoint answers with an error response, not
a file; no output document is exposed. -/
theorem download_rejected_unless_completed (b : BookRec)
    (readFile : String → Option (List ℕ)) (h : b.status ≠ Status.completed) :
    book_download b readFile = .badRequest "Book processing not completed" := by
  unfold book_download
  rw [if_pos (Or.inl h)]

/-- Witness for C7 at a concrete failed book. -/
theorem download_rejected_unless_completed_witness :
    bFailed.status ≠ Status.completed ∧
    book_download bFailed (fun _ => some [1, 2]) =
      .badRequest "Book processing not completed" :=
  ⟨by decide, download_rejected_unless_completed bFailed (fun _ => some [1, 2])
    (by decide)⟩

/-- Counterexample to C8 as stated: the status response for a failed
book is exactly the fixed stats fields — it contains no error
description of any kind (no such field exists on the model either). -/
theorem failed_status_response_lacks_error_description :
    book_status_json 1 bFailed =
      [("status", JVal.jstr "failed"), ("title", JVal.jstr "B"),
       ("original_size_mb", JVal.jnum 2), ("optimized_size_mb", JVal.jnull),
       ("compression_ratio", JVal.jnull), ("page_count", JVal.jnum 3),
       ("total_pages", JVal.jnum 3)] ∧
    ∀ kv ∈ book_status_json 1 bFailed, kv.1 ≠ "error" := by
  constructor
  · rfl
  · decide

/-- C8 (amended): the status query always returns the job's current
state name; when the state is `completed` it additionally returns the
download reference; when the state is `failed` the response consists of
the fixed stats fields only — no error description is returned. -/
theorem status_json_fields (book_id : ℕ) (b : BookRec) :
    ("status", JVal.jstr (statusStr b.status)) ∈ book_status_json book_id b ∧
    (b.status = Status.completed →
      ("download_url", JVal.jstr (book_download_url book_id)) ∈
        book_status_json book_id b) ∧
    (b.status = Status.failed →
      (book_status_json book_id b).map Prod.fst =
        ["status", "title", "original_size_mb", "optimized_size_mb",
         "compression_ratio", "page_count", "total_pages"]) := by
  refine ⟨?_, ?_, ?_⟩
  · simp [book_status_json]
  · intro hc
    simp [book_status_json, hc]
  · intro hf
    simp [book_status_json, hf]

/-- Witness for C8's amended theorem at a concrete completed book. -/
theorem status_json_fields_witness :
    ("status", JVal.jstr (statusStr bCompleted.status)) ∈
      book_status_json 1 bCompleted ∧
    ("download_url", JVal.jstr (book_download_url 1)) ∈
      book_status_json 1 bCompleted :=
  ⟨(status_json_fields 1 bCompleted).1,
   (status_json_fields 1 bCompleted).2.1 rfl⟩

/-- C10: starting processing on a book already in status `processing`
answers with an error, stores nothing (the database is returned
unchanged — settings and status untouched) and starts no background
worker. -/
theorem process_already_processing_atomic (db : ℕ → Option BookRec)
    (book_id : ℕ) (b : BookRec) (parsed : Except String PSettings)
    (hb : db book_id = some b) (hp : b.status = Status.processing) :
    book_process db book_id parsed =
      (.badRequest "Book is already being processed", db, false) := by
  unfold book_process
  rw [hb]
  simp [hp]

/-- Witness for C10 at a concrete database. -/
theorem process_already_processing_atomic_witness :
    db2 1 = some bProcessing ∧ bProcessing.status = Status.processing ∧
    book_process db2 1 (.ok s0) =
      (.badRequest "Book is already being processed", db2, false) :=
  ⟨rfl, rfl, process_already_processing_atomic db2 1 bProcessing (.ok s0) rfl rfl⟩

end Noteshrinker
